import Mathlib

/-!
Verification development for a fitness-tracker repository.

The embedding mirrors two source files:

* `exercise_analyzer.py`: exercise state machine (push-up and squat analyzers),
  rep counting, form feedback, session reset.
* `pose_utils.py`: landmark access and the planar three-point angle
  computation `calculate_angle`.
* `video_processor.py`: the batch session summary `_generate_summary`.

Modelling conventions:

* Python float angle values consumed by the analyzers are modelled as `ℚ`
  (the analyzer logic only compares them against integer thresholds).
  The geometry layer (`calculate_angle`) is modelled over `ℝ`, with
  `Option ℝ` encoding the IEEE result: `none` stands for NaN, which the
  NumPy pipeline produces exactly when the divisor `‖ba‖·‖bc‖` is zero
  (0/0); `np.clip` and `np.arccos` both map NaN to NaN.
* A Python angle dict is a structure of `Option` fields: a missing key is
  `none`.  An empty dict `{}` is the all-`none` record.
* Mutation of the analyzer object is explicit state passing:
  `analyze_frame : State → input → State × result`.
* List `append` is `++ [x]`; the Python index `[-1]` is `List.getLast?`.
-/

/-- `ExerciseState`: the state enumeration `UP`/`DOWN`/`TRANSITION` from
`exercise_analyzer.py`. -/
inductive ExerciseState : Type
  | up
  | down
  | transition
deriving DecidableEq, Repr

/-- `FormFeedback`: feedback data structure `{is_correct, message, severity}`. -/
structure FormFeedback : Type where
  is_correct : Bool
  message : String
  severity : String
deriving DecidableEq, Repr

/-- Push-up angle dict: keys `elbow`, `shoulder`, `body_alignment`
(`PushUpAnalyzer._calculate_angles`); a missing key is `none`. -/
structure PushupAngles : Type where
  elbow : Option ℚ
  shoulder : Option ℚ
  body_alignment : Option ℚ
deriving DecidableEq, Repr

/-- Squat angle dict: keys `knee`, `hip`, `ankle`
(`SquatAnalyzer._calculate_angles`); a missing key is `none`. -/
structure SquatAngles : Type where
  knee : Option ℚ
  hip : Option ℚ
  ankle : Option ℚ
deriving DecidableEq, Repr

/-- The empty dict `{}` returned for `angles` on a landmark-absent frame. -/
def PushupAngles.empty : PushupAngles := ⟨none, none, none⟩

/-- The empty dict `{}` returned for `angles` on a landmark-absent frame. -/
def SquatAngles.empty : SquatAngles := ⟨none, none, none⟩

/-- Analyzer session state: the mutable fields set by
`ExerciseAnalyzer.__init__` and mutated by `analyze_frame` / `reset`. -/
structure AnalyzerState (A : Type) : Type where
  rep_count : ℕ
  current_state : ExerciseState
  state_history : List ExerciseState
  angle_history : List A
  feedback_history : List (List FormFeedback)
deriving DecidableEq, Repr

/-- `ExerciseAnalyzer.__init__`: rep count 0, state UP, empty histories. -/
def initAnalyzer {A : Type} : AnalyzerState A :=
  ⟨0, ExerciseState.up, [], [], []⟩

/-- `ExerciseAnalyzer.reset`: sets rep count 0, state UP, empties the three
histories (the same five assignments as `__init__`). -/
def analyzerReset {A : Type} (_s : AnalyzerState A) : AnalyzerState A :=
  ⟨0, ExerciseState.up, [], [], []⟩

/-- The dict returned by `analyze_frame`:
`{"rep_count": _, "state": _, "angles": _, "feedback": _}`. -/
structure FrameResult (A : Type) : Type where
  rep_count : ℕ
  state : ExerciseState
  angles : A
  feedback : List FormFeedback
deriving DecidableEq, Repr

/-- `PushUpAnalyzer.elbow_angle_threshold = 90` degrees. -/
def elbow_angle_threshold : ℚ := 90

/-- `SquatAnalyzer.knee_angle_threshold = 110` degrees. -/
def knee_angle_threshold : ℚ := 110

/-- `PushUpAnalyzer._determine_state`: DOWN iff `angles.get('elbow', 180)`
is strictly below the 90° threshold, else UP. -/
def pushupDetermineState (angles : PushupAngles) : ExerciseState :=
  if angles.elbow.getD 180 < elbow_angle_threshold then ExerciseState.down
  else ExerciseState.up

/-- `SquatAnalyzer._determine_state`: DOWN iff `angles.get('knee', 180)` is
strictly below the 110° threshold, else UP. -/
def squatDetermineState (angles : SquatAngles) : ExerciseState :=
  if angles.knee.getD 180 < knee_angle_threshold then ExerciseState.down
  else ExerciseState.up

/-- `_is_rep_complete` (identical in `PushUpAnalyzer` and `SquatAnalyzer`):
false when fewer than two recorded states; otherwise true exactly when the
last recorded state is DOWN and the new state is UP. -/
def isRepComplete (history : List ExerciseState) (new_state : ExerciseState) : Bool :=
  if history.length < 2 then false
  else history.getLast? == some ExerciseState.down && new_state == ExerciseState.up

/-- `PushUpAnalyzer.get_form_feedback`, factored over the current state and
the angle dict recomputed from the landmarks (the recomputation
`self._calculate_angles(landmarks)` is deterministic in the landmarks). -/
def pushupFormFeedback (current_state : ExerciseState) (angles : PushupAngles) :
    List FormFeedback :=
  (if current_state = ExerciseState.down ∧ angles.elbow.getD 180 > 100 then
    [⟨false, "Go deeper - elbows should bend past 90 degrees", "warning"⟩]
  else []) ++
  (if angles.shoulder.getD 90 > 90 then
    [⟨false, "Keep elbows closer to body - don\x27t flare them out", "warning"⟩]
  else []) ++
  (if angles.body_alignment.getD 180 < 160 then
    [⟨false, "Keep body straight - avoid hip sagging", "error"⟩]
  else [])

/-- `SquatAnalyzer.get_form_feedback`, factored the same way. -/
def squatFormFeedback (current_state : ExerciseState) (angles : SquatAngles) :
    List FormFeedback :=
  (if current_state = ExerciseState.down ∧ angles.knee.getD 180 > 120 then
    [⟨false, "Go deeper - thighs should be parallel to ground", "warning"⟩]
  else []) ++
  (if angles.hip.getD 180 < 45 then
    [⟨false, "Keep chest up - maintain proud posture", "warning"⟩]
  else []) ++
  (if angles.ankle.getD 90 < 60 then
    [⟨false, "Keep heels on the ground", "error"⟩]
  else [])

/-- `PushUpAnalyzer.analyze_frame`.  The input is `none` for an absent
landmark set, `some angles` for a present one, with `angles` standing for
the value of `self._calculate_angles(landmarks)`.  On the absent branch the
method returns the current counters with `angles = {}` and `feedback = []`
and mutates nothing.  On the present branch it classifies the new state,
increments the rep count when `_is_rep_complete` fires (checked against the
history *before* the new state is appended), updates `current_state`,
appends to the three histories, and computes feedback against the already
updated `current_state`. -/
def pushupAnalyzeFrame (s : AnalyzerState PushupAngles) (landmarks : Option PushupAngles) :
    AnalyzerState PushupAngles × FrameResult PushupAngles :=
  match landmarks with
  | none => (s, ⟨s.rep_count, s.current_state, PushupAngles.empty, []⟩)
  | some angles =>
    let new_state := pushupDetermineState angles
    let rc := if isRepComplete s.state_history new_state then s.rep_count + 1
      else s.rep_count
    let feedback := pushupFormFeedback new_state angles
    (⟨rc, new_state, s.state_history ++ [new_state], s.angle_history ++ [angles],
        s.feedback_history ++ [feedback]⟩,
      ⟨rc, new_state, angles, feedback⟩)

/-- `SquatAnalyzer.analyze_frame`, structured identically. -/
def squatAnalyzeFrame (s : AnalyzerState SquatAngles) (landmarks : Option SquatAngles) :
    AnalyzerState SquatAngles × FrameResult SquatAngles :=
  match landmarks with
  | none => (s, ⟨s.rep_count, s.current_state, SquatAngles.empty, []⟩)
  | some angles =>
    let new_state := squatDetermineState angles
    let rc := if isRepComplete s.state_history new_state then s.rep_count + 1
      else s.rep_count
    let feedback := squatFormFeedback new_state angles
    (⟨rc, new_state, s.state_history ++ [new_state], s.angle_history ++ [angles],
        s.feedback_history ++ [feedback]⟩,
      ⟨rc, new_state, angles, feedback⟩)

/-- Run a push-up analyzer from state `s` over a list of frames, collecting
the per-frame results in order (models a sequence of `analyze_frame` calls,
as the batch loop in `video_processor.py` performs). -/
def pushupRunFrom (s : AnalyzerState PushupAngles) :
    List (Option PushupAngles) →
    AnalyzerState PushupAngles × List (FrameResult PushupAngles)
  | [] => (s, [])
  | f :: fs =>
    let step := pushupAnalyzeFrame s f
    let rest := pushupRunFrom step.1 fs
    (rest.1, step.2 :: rest.2)

/-- Run a squat analyzer from state `s` over a list of frames. -/
def squatRunFrom (s : AnalyzerState SquatAngles) :
    List (Option SquatAngles) →
    AnalyzerState SquatAngles × List (FrameResult SquatAngles)
  | [] => (s, [])
  | f :: fs =>
    let step := squatAnalyzeFrame s f
    let rest := squatRunFrom step.1 fs
    (rest.1, step.2 :: rest.2)

/-! ## Geometry layer (`pose_utils.py`), over `ℝ`

`calculate_angle` projects its three points to the plane, forms the rays
`ba` and `bc`, divides the dot product by the product of the Euclidean
norms, clips the quotient to `[-1, 1]`, and takes `arccos` in degrees.
With NumPy floats a zero divisor produces NaN (0/0), which `np.clip` and
`np.arccos` propagate; the function then returns NaN.  We model the return
value as `Option ℝ` with `none` standing for that NaN outcome, produced
exactly when `‖ba‖·‖bc‖ = 0`. -/

/-- Difference of two planar points (`a - b` on the x,y projections). -/
def vsub2 (p q : ℝ × ℝ) : ℝ × ℝ := (p.1 - q.1, p.2 - q.2)

/-- `np.dot` on planar vectors. -/
def dot2 (v w : ℝ × ℝ) : ℝ := v.1 * w.1 + v.2 * w.2

/-- `np.linalg.norm` on planar vectors. -/
noncomputable def norm2 (v : ℝ × ℝ) : ℝ := Real.sqrt (v.1 ^ 2 + v.2 ^ 2)

/-- `np.clip(x, -1.0, 1.0)`. -/
noncomputable def clipUnit (x : ℝ) : ℝ := max (-1) (min 1 x)

/-- `pose_utils.calculate_angle(a, b, c)`: the planar angle at vertex `b`
in degrees.  `none` models the NaN produced when either ray has zero
length (the divisor `‖ba‖·‖bc‖` vanishes). -/
noncomputable def calculate_angle (a b c : ℝ × ℝ × ℝ) : Option ℝ :=
  let ba : ℝ × ℝ := vsub2 (a.1, a.2.1) (b.1, b.2.1)
  let bc : ℝ × ℝ := vsub2 (c.1, c.2.1) (b.1, b.2.1)
  let den : ℝ := norm2 ba * norm2 bc
  if den = 0 then none
  else some (Real.arccos (clipUnit (dot2 ba bc / den)) * (180 / Real.pi))

/-- `pose_utils.get_landmark_coordinates`: the `(x, y, z)` triple of row
`idx` when the index is in range and the row has at least three entries,
else `None`. -/
def get_landmark_coordinates (landmarks : List (List ℝ)) (idx : ℕ) :
    Option (ℝ × ℝ × ℝ) :=
  match landmarks[idx]? with
  | some (x :: y :: z :: _) => some (x, y, z)
  | _ => none

/-- MediaPipe landmark index `RIGHT_SHOULDER`. -/
def RIGHT_SHOULDER : ℕ := 12

/-- MediaPipe landmark index `RIGHT_ELBOW`. -/
def RIGHT_ELBOW : ℕ := 14

/-- MediaPipe landmark index `RIGHT_WRIST`. -/
def RIGHT_WRIST : ℕ := 16

/-- MediaPipe landmark index `RIGHT_HIP`. -/
def RIGHT_HIP : ℕ := 24

/-- MediaPipe landmark index `RIGHT_KNEE`. -/
def RIGHT_KNEE : ℕ := 26

/-- Push-up angle dict at the geometry level: each key is present
(`some _`) when the three required landmarks are available; the inner
`Option ℝ` is the `calculate_angle` value, `none` meaning NaN. -/
structure PushupAnglesR : Type where
  elbow : Option (Option ℝ)
  shoulder : Option (Option ℝ)
  body_alignment : Option (Option ℝ)

/-- `PushUpAnalyzer._calculate_angles` over a raw landmark array: a key is
stored exactly when its three coordinates are all available. -/
noncomputable def pushupCalculateAngles (lm : List (List ℝ)) : PushupAnglesR :=
  let rs := get_landmark_coordinates lm RIGHT_SHOULDER
  let re := get_landmark_coordinates lm RIGHT_ELBOW
  let rw := get_landmark_coordinates lm RIGHT_WRIST
  let rh := get_landmark_coordinates lm RIGHT_HIP
  let rk := get_landmark_coordinates lm RIGHT_KNEE
  ⟨match rs, re, rw with
    | some s, some e, some w => some (calculate_angle s e w)
    | _, _, _ => none,
    match re, rs, rh with
    | some e, some s, some h => some (calculate_angle e s h)
    | _, _, _ => none,
    match rs, rh, rk with
    | some s, some h, some k => some (calculate_angle s h k)
    | _, _, _ => none⟩

/-! ## Batch session summary (`video_processor.py`) -/

/-- The dict returned by `VideoProcessor._generate_summary` (the empty-input
early return carries only reps/accuracy/feedback keys; we render its missing
counters as 0). -/
structure SessionSummary : Type where
  total_reps : ℕ
  form_accuracy : ℚ
  total_frames : ℕ
  correct_form_frames : ℕ
  feedback_summary : List (String × ℕ × String)
deriving DecidableEq, Repr

/-- One step of the feedback aggregation: bump the per-message counter,
inserting `(message, count, severity)` on first occurrence (the Python dict
keeps insertion order; severity is taken from the first occurrence). -/
def addFeedbackSummary (acc : List (String × ℕ × String)) (f : FormFeedback) :
    List (String × ℕ × String) :=
  if acc.any (fun e => e.1 = f.message) then
    acc.map (fun e => if e.1 = f.message then (e.1, e.2.1 + 1, e.2.2) else e)
  else acc ++ [(f.message, 1, f.severity)]

/-- The per-frame correct-form test in `_generate_summary`:
`not feedback_list or all(f.is_correct for f in feedback_list)`. -/
def correctFormFrame (feedback : List FormFeedback) : Bool :=
  feedback.isEmpty || feedback.all (fun f => f.is_correct)

/-- `VideoProcessor._generate_summary` over the per-frame analysis results:
total reps from the last frame, `correct_form_frames` counts frames passing
`correctFormFrame`, `form_accuracy = correct / total * 100`, and feedback
items are aggregated per message in encounter order. -/
def generateSummary {A : Type} (results : List (FrameResult A)) : SessionSummary :=
  match results.getLast? with
  | none => ⟨0, 0, 0, 0, []⟩
  | some lastR =>
    let total_frames := results.length
    let correct := (results.filter (fun r => correctFormFrame r.feedback)).length
    let fb := (results.map (fun r => r.feedback)).flatten.foldl addFeedbackSummary []
    ⟨lastR.rep_count, ((correct : ℚ) / (total_frames : ℚ)) * 100,
      total_frames, correct, fb⟩

example : (pushupRunFrom initAnalyzer
    [some ⟨some 180, none, none⟩, some ⟨some 45, none, none⟩,
      some ⟨some 180, none, none⟩]).1.rep_count = 1 := by decide

/-! ## Helper lemmas -/

/-- `_is_rep_complete` returns true exactly when the history holds at least
two states, the last recorded state is DOWN, and the new state is UP. -/
theorem isRepComplete_iff (history : List ExerciseState) (new_state : ExerciseState) :
    isRepComplete history new_state = true ↔
      2 ≤ history.length ∧ history.getLast? = some ExerciseState.down ∧
        new_state = ExerciseState.up := by
  unfold isRepComplete
  split
  · simp only [Bool.false_eq_true, false_iff]
    intro h
    omega
  · simp only [Bool.and_eq_true, beq_iff_eq]
    constructor
    · intro h
      exact ⟨by omega, h.1, h.2⟩
    · intro h
      exact ⟨h.2.1, h.2.2⟩

/-- Every item built by the push-up feedback rules has `is_correct = false`. -/
theorem pushupFormFeedback_not_correct (st : ExerciseState) (a : PushupAngles) :
    ∀ f ∈ pushupFormFeedback st a, f.is_correct = false := by
  intro f hf
  unfold pushupFormFeedback at hf
  simp only [List.mem_append] at hf
  rcases hf with (hf | hf) | hf <;>
    · revert hf
      split <;> simp_all

/-- Every item built by the squat feedback rules has `is_correct = false`. -/
theorem squatFormFeedback_not_correct (st : ExerciseState) (a : SquatAngles) :
    ∀ f ∈ squatFormFeedback st a, f.is_correct = false := by
  intro f hf
  unfold squatFormFeedback at hf
  simp only [List.mem_append] at hf
  rcases hf with (hf | hf) | hf <;>
    · revert hf
      split <;> simp_all

/-- The push-up classifier only ever outputs UP or DOWN. -/
theorem pushupDetermineState_up_or_down (a : PushupAngles) :
    pushupDetermineState a = ExerciseState.up ∨
      pushupDetermineState a = ExerciseState.down := by
  unfold pushupDetermineState
  split
  · exact Or.inr rfl
  · exact Or.inl rfl

/-- The squat classifier only ever outputs UP or DOWN. -/
theorem squatDetermineState_up_or_down (a : SquatAngles) :
    squatDetermineState a = ExerciseState.up ∨
      squatDetermineState a = ExerciseState.down := by
  unfold squatDetermineState
  split
  · exact Or.inr rfl
  · exact Or.inl rfl

/-! ## C2, C8 -/

/-- C2: a landmark-absent frame returns the current rep count and state with
an empty angle dict and empty feedback, and leaves the analyzer state (rep
count, current state, and all three histories) exactly unchanged. -/
theorem C2_absent_landmarks :
    (∀ s : AnalyzerState PushupAngles,
      pushupAnalyzeFrame s none =
        (s, ⟨s.rep_count, s.current_state, PushupAngles.empty, []⟩)) ∧
    (∀ s : AnalyzerState SquatAngles,
      squatAnalyzeFrame s none =
        (s, ⟨s.rep_count, s.current_state, SquatAngles.empty, []⟩)) :=
  ⟨fun _ => rfl, fun _ => rfl⟩

/-- C8: `reset()` zeroes the rep count, sets state UP and empties the three
histories — the same five fields `__init__` sets — so the reset state equals
a fresh analyzer and every subsequent sequence of `analyze_frame` calls
produces identical states and results. -/
theorem C8_reset_fresh :
    (∀ (A : Type) (s : AnalyzerState A),
      analyzerReset s = (initAnalyzer : AnalyzerState A)) ∧
    (∀ (s : AnalyzerState PushupAngles) (frames : List (Option PushupAngles)),
      pushupRunFrom (analyzerReset s) frames = pushupRunFrom initAnalyzer frames) ∧
    (∀ (s : AnalyzerState SquatAngles) (frames : List (Option SquatAngles)),
      squatRunFrom (analyzerReset s) frames = squatRunFrom initAnalyzer frames) :=
  ⟨fun _ _ => rfl, fun _ _ => rfl, fun _ _ => rfl⟩

/-! ## C3 -/

/-- The "go deeper" warning item of the push-up analyzer. -/
def goDeeperPushup : FormFeedback :=
  ⟨false, "Go deeper - elbows should bend past 90 degrees", "warning"⟩

/-- C3: with the analyzer in state DOWN, a computed elbow angle of 70° fires
no "go deeper" feedback, while a computed elbow angle of 110° fires the "go
deeper" warning. -/
theorem C3_depth_feedback :
    (∀ a : PushupAngles, a.elbow = some 70 →
      goDeeperPushup ∉ pushupFormFeedback ExerciseState.down a) ∧
    (∀ a : PushupAngles, a.elbow = some 110 →
      goDeeperPushup ∈ pushupFormFeedback ExerciseState.down a) := by
  constructor
  · intro a ha hmem
    unfold pushupFormFeedback at hmem
    simp only [List.mem_append] at hmem
    rcases hmem with (h | h) | h <;>
      · revert h
        split <;> simp_all [goDeeperPushup, ha] <;> norm_num at *
  · intro a ha
    unfold pushupFormFeedback
    norm_num [goDeeperPushup, ha]

/-- Witness for C3 at the concrete angle dicts `{elbow: 70}` and
`{elbow: 110}`. -/
theorem C3_depth_feedback_witness :
    goDeeperPushup ∉ pushupFormFeedback ExerciseState.down ⟨some 70, none, none⟩ ∧
    goDeeperPushup ∈ pushupFormFeedback ExerciseState.down ⟨some 110, none, none⟩ :=
  ⟨C3_depth_feedback.1 ⟨some 70, none, none⟩ rfl,
    C3_depth_feedback.2 ⟨some 110, none, none⟩ rfl⟩

/-! ## C9 -/

/-- C9: when landmarks are present but the discriminating angle key is
missing from the angle dict (its joint triple was incomplete), the
`angles.get(_, 180)` default classifies the frame UP — and such a frame
completes a rep whenever the last recorded state was DOWN (with at least
two states recorded).  At the landmark level, the `elbow` key is missing
exactly as soon as any of shoulder/elbow/wrist coordinates is unavailable. -/
theorem C9_missing_joint_defaults_up :
    (∀ a : PushupAngles, a.elbow = none →
      pushupDetermineState a = ExerciseState.up) ∧
    (∀ (s : AnalyzerState PushupAngles) (a : PushupAngles), a.elbow = none →
      2 ≤ s.state_history.length →
      s.state_history.getLast? = some ExerciseState.down →
      (pushupAnalyzeFrame s (some a)).1.rep_count = s.rep_count + 1) ∧
    (∀ a : SquatAngles, a.knee = none →
      squatDetermineState a = ExerciseState.up) ∧
    (∀ (s : AnalyzerState SquatAngles) (a : SquatAngles), a.knee = none →
      2 ≤ s.state_history.length →
      s.state_history.getLast? = some ExerciseState.down →
      (squatAnalyzeFrame s (some a)).1.rep_count = s.rep_count + 1) ∧
    (∀ lm : List (List ℝ),
      get_landmark_coordinates lm RIGHT_SHOULDER = none ∨
        get_landmark_coordinates lm RIGHT_ELBOW = none ∨
        get_landmark_coordinates lm RIGHT_WRIST = none →
      (pushupCalculateAngles lm).elbow = none) := by
  have hpu : ∀ a : PushupAngles, a.elbow = none →
      pushupDetermineState a = ExerciseState.up := by
    intro a ha
    unfold pushupDetermineState
    rw [ha]
    norm_num [elbow_angle_threshold]
  have hsq : ∀ a : SquatAngles, a.knee = none →
      squatDetermineState a = ExerciseState.up := by
    intro a ha
    unfold squatDetermineState
    rw [ha]
    norm_num [knee_angle_threshold]
  refine ⟨hpu, ?_, hsq, ?_, ?_⟩
  · intro s a ha h2 hlast
    have hrep : isRepComplete s.state_history (pushupDetermineState a) = true :=
      (isRepComplete_iff _ _).mpr ⟨h2, hlast, hpu a ha⟩
    simp [pushupAnalyzeFrame, hrep]
  · intro s a ha h2 hlast
    have hrep : isRepComplete s.state_history (squatDetermineState a) = true :=
      (isRepComplete_iff _ _).mpr ⟨h2, hlast, hsq a ha⟩
    simp [squatAnalyzeFrame, hrep]
  · intro lm h
    unfold pushupCalculateAngles
    rcases h with h | h | h <;>
      cases hrs : get_landmark_coordinates lm RIGHT_SHOULDER <;>
      cases hre : get_landmark_coordinates lm RIGHT_ELBOW <;>
      cases hrw : get_landmark_coordinates lm RIGHT_WRIST <;>
      simp_all

/-- Witness for C9: an angle dict with no `elbow` key classifies UP, and at
history `[UP, DOWN]` it bumps the rep count; same for the squat analyzer;
an empty landmark array yields no `elbow` key. -/
theorem C9_missing_joint_defaults_up_witness :
    pushupDetermineState ⟨none, none, none⟩ = ExerciseState.up ∧
    (pushupAnalyzeFrame
        ⟨0, ExerciseState.down, [ExerciseState.up, ExerciseState.down], [], []⟩
        (some ⟨none, none, none⟩)).1.rep_count = 0 + 1 ∧
    squatDetermineState ⟨none, none, none⟩ = ExerciseState.up ∧
    (squatAnalyzeFrame
        ⟨0, ExerciseState.down, [ExerciseState.up, ExerciseState.down], [], []⟩
        (some ⟨none, none, none⟩)).1.rep_count = 0 + 1 ∧
    (pushupCalculateAngles []).elbow = none :=
  ⟨C9_missing_joint_defaults_up.1 _ rfl,
    C9_missing_joint_defaults_up.2.1 _ _ rfl (by decide) (by decide),
    C9_missing_joint_defaults_up.2.2.1 _ rfl,
    C9_missing_joint_defaults_up.2.2.2.1 _ _ rfl (by decide) (by decide),
    C9_missing_joint_defaults_up.2.2.2.2 [] (Or.inl rfl)⟩

/-! ## C10 -/

/-- C10: every feedback item either analyzer ever produces carries
`is_correct = false`, and therefore the summary's correct-form test
(`empty or all correct`) holds of such a frame exactly when its feedback
list is empty. -/
theorem C10_feedback_never_correct :
    (∀ (st : ExerciseState) (a : PushupAngles),
      ∀ f ∈ pushupFormFeedback st a, f.is_correct = false) ∧
    (∀ (st : ExerciseState) (a : SquatAngles),
      ∀ f ∈ squatFormFeedback st a, f.is_correct = false) ∧
    (∀ fb : List FormFeedback, (∀ f ∈ fb, f.is_correct = false) →
      (correctFormFrame fb = true ↔ fb = [])) := by
  refine ⟨pushupFormFeedback_not_correct, squatFormFeedback_not_correct, ?_⟩
  intro fb h
  cases fb with
  | nil => simp [correctFormFrame]
  | cons f fs =>
    have hf := h f (List.mem_cons_self f fs)
    simp [correctFormFrame, hf]

/-- Witness for C10 on a frame that fires the push-up depth warning. -/
theorem C10_feedback_never_correct_witness :
    goDeeperPushup.is_correct = false ∧
    (correctFormFrame [goDeeperPushup] = true ↔ [goDeeperPushup] = []) :=
  ⟨C10_feedback_never_correct.1 ExerciseState.down ⟨some 150, none, none⟩
      goDeeperPushup (by norm_num [pushupFormFeedback, goDeeperPushup]),
    C10_feedback_never_correct.2.2 [goDeeperPushup] (by simp [goDeeperPushup])⟩

/-! ## C4 -/

/-- One push-up `analyze_frame` step preserves "current state and all
recorded states are UP or DOWN". -/
theorem pushupStep_state_inv (s : AnalyzerState PushupAngles)
    (f : Option PushupAngles)
    (h1 : s.current_state = ExerciseState.up ∨ s.current_state = ExerciseState.down)
    (h2 : ∀ st ∈ s.state_history, st = ExerciseState.up ∨ st = ExerciseState.down) :
    ((pushupAnalyzeFrame s f).1.current_state = ExerciseState.up ∨
      (pushupAnalyzeFrame s f).1.current_state = ExerciseState.down) ∧
    ∀ st ∈ (pushupAnalyzeFrame s f).1.state_history,
      st = ExerciseState.up ∨ st = ExerciseState.down := by
  cases f with
  | none => exact ⟨h1, h2⟩
  | some a =>
    constructor
    · simpa [pushupAnalyzeFrame] using pushupDetermineState_up_or_down a
    · intro st hst
      simp only [pushupAnalyzeFrame, List.mem_append, List.mem_singleton] at hst
      rcases hst with hst | hst
      · exact h2 st hst
      · rw [hst]
        exact pushupDetermineState_up_or_down a

/-- One squat `analyze_frame` step preserves the same invariant. -/
theorem squatStep_state_inv (s : AnalyzerState SquatAngles)
    (f : Option SquatAngles)
    (h1 : s.current_state = ExerciseState.up ∨ s.current_state = ExerciseState.down)
    (h2 : ∀ st ∈ s.state_history, st = ExerciseState.up ∨ st = ExerciseState.down) :
    ((squatAnalyzeFrame s f).1.current_state = ExerciseState.up ∨
      (squatAnalyzeFrame s f).1.current_state = ExerciseState.down) ∧
    ∀ st ∈ (squatAnalyzeFrame s f).1.state_history,
      st = ExerciseState.up ∨ st = ExerciseState.down := by
  cases f with
  | none => exact ⟨h1, h2⟩
  | some a =>
    constructor
    · simpa [squatAnalyzeFrame] using squatDetermineState_up_or_down a
    · intro st hst
      simp only [squatAnalyzeFrame, List.mem_append, List.mem_singleton] at hst
      rcases hst with hst | hst
      · exact h2 st hst
      · rw [hst]
        exact squatDetermineState_up_or_down a

/-- The invariant holds of every push-up analyzer state reached from a
state satisfying it. -/
theorem pushupRun_state_inv (frames : List (Option PushupAngles)) :
    ∀ s : AnalyzerState PushupAngles,
      (s.current_state = ExerciseState.up ∨ s.current_state = ExerciseState.down) →
      (∀ st ∈ s.state_history, st = ExerciseState.up ∨ st = ExerciseState.down) →
      ((pushupRunFrom s frames).1.current_state = ExerciseState.up ∨
        (pushupRunFrom s frames).1.current_state = ExerciseState.down) ∧
      ∀ st ∈ (pushupRunFrom s frames).1.state_history,
        st = ExerciseState.up ∨ st = ExerciseState.down := by
  induction frames with
  | nil => exact fun s h1 h2 => ⟨h1, h2⟩
  | cons f fs ih =>
    intro s h1 h2
    have hstep := pushupStep_state_inv s f h1 h2
    simpa [pushupRunFrom] using ih (pushupAnalyzeFrame s f).1 hstep.1 hstep.2

/-- The invariant holds of every squat analyzer state reached from a state
satisfying it. -/
theorem squatRun_state_inv (frames : List (Option SquatAngles)) :
    ∀ s : AnalyzerState SquatAngles,
      (s.current_state = ExerciseState.up ∨ s.current_state = ExerciseState.down) →
      (∀ st ∈ s.state_history, st = ExerciseState.up ∨ st = ExerciseState.down) →
      ((squatRunFrom s frames).1.current_state = ExerciseState.up ∨
        (squatRunFrom s frames).1.current_state = ExerciseState.down) ∧
      ∀ st ∈ (squatRunFrom s frames).1.state_history,
        st = ExerciseState.up ∨ st = ExerciseState.down := by
  induction frames with
  | nil => exact fun s h1 h2 => ⟨h1, h2⟩
  | cons f fs ih =>
    intro s h1 h2
    have hstep := squatStep_state_inv s f h1 h2
    simpa [squatRunFrom] using ih (squatAnalyzeFrame s f).1 hstep.1 hstep.2

/-- C4: the classifiers are memoryless single-angle threshold tests (DOWN
iff elbow < 90° for push-ups, knee < 110° for squats, else UP, regardless
of the prior analyzer state), the initial state is UP, and consequently on
every run from a fresh analyzer the current state and every recorded state
is UP or DOWN — TRANSITION is never assigned. -/
theorem C4_state_classifier :
    (∀ a : PushupAngles,
      (pushupDetermineState a = ExerciseState.down ↔ a.elbow.getD 180 < 90) ∧
      (pushupDetermineState a = ExerciseState.up ↔ ¬ a.elbow.getD 180 < 90)) ∧
    (∀ a : SquatAngles,
      (squatDetermineState a = ExerciseState.down ↔ a.knee.getD 180 < 110) ∧
      (squatDetermineState a = ExerciseState.up ↔ ¬ a.knee.getD 180 < 110)) ∧
    (∀ (s : AnalyzerState PushupAngles) (a : PushupAngles),
      (pushupAnalyzeFrame s (some a)).1.current_state = pushupDetermineState a) ∧
    (∀ (s : AnalyzerState SquatAngles) (a : SquatAngles),
      (squatAnalyzeFrame s (some a)).1.current_state = squatDetermineState a) ∧
    (initAnalyzer : AnalyzerState PushupAngles).current_state = ExerciseState.up ∧
    (initAnalyzer : AnalyzerState SquatAngles).current_state = ExerciseState.up ∧
    (∀ frames : List (Option PushupAngles),
      ((pushupRunFrom initAnalyzer frames).1.current_state = ExerciseState.up ∨
        (pushupRunFrom initAnalyzer frames).1.current_state = ExerciseState.down) ∧
      ∀ st ∈ (pushupRunFrom initAnalyzer frames).1.state_history,
        st = ExerciseState.up ∨ st = ExerciseState.down) ∧
    (∀ frames : List (Option SquatAngles),
      ((squatRunFrom initAnalyzer frames).1.current_state = ExerciseState.up ∨
        (squatRunFrom initAnalyzer frames).1.current_state = ExerciseState.down) ∧
      ∀ st ∈ (squatRunFrom initAnalyzer frames).1.state_history,
        st = ExerciseState.up ∨ st = ExerciseState.down) := by
  refine ⟨?_, ?_, fun s a => by simp [pushupAnalyzeFrame],
    fun s a => by simp [squatAnalyzeFrame], rfl, rfl,
    fun frames => pushupRun_state_inv frames initAnalyzer (Or.inl rfl) (by simp [initAnalyzer]),
    fun frames => squatRun_state_inv frames initAnalyzer (Or.inl rfl) (by simp [initAnalyzer])⟩
  · intro a
    unfold pushupDetermineState elbow_angle_threshold
    constructor <;> constructor <;> intro h <;> first
      | (split at h <;> simp_all)
      | simp [h]
  · intro a
    unfold squatDetermineState knee_angle_threshold
    constructor <;> constructor <;> intro h <;> first
      | (split at h <;> simp_all)
      | simp [h]

/-! ## C1 -/

/-- C1: on a landmark-present frame the rep count becomes `old + 1` exactly
when the history already holds at least two recorded states, the last
recorded state is DOWN and the newly classified state is UP, and stays
`old` otherwise; it never decreases on any frame; and the state sequence
UP, DOWN, UP fed one frame at a time yields rep counts 0, 0, 1 — a single
increment at the DOWN→UP step — for both analyzers. -/
theorem C1_rep_completion_rule :
    (∀ (s : AnalyzerState PushupAngles) (a : PushupAngles),
      (pushupAnalyzeFrame s (some a)).1.rep_count =
        if 2 ≤ s.state_history.length ∧
            s.state_history.getLast? = some ExerciseState.down ∧
            pushupDetermineState a = ExerciseState.up
        then s.rep_count + 1 else s.rep_count) ∧
    (∀ (s : AnalyzerState PushupAngles) (l : Option PushupAngles),
      s.rep_count ≤ (pushupAnalyzeFrame s l).1.rep_count) ∧
    (∀ (s : AnalyzerState SquatAngles) (a : SquatAngles),
      (squatAnalyzeFrame s (some a)).1.rep_count =
        if 2 ≤ s.state_history.length ∧
            s.state_history.getLast? = some ExerciseState.down ∧
            squatDetermineState a = ExerciseState.up
        then s.rep_count + 1 else s.rep_count) ∧
    (∀ (s : AnalyzerState SquatAngles) (l : Option SquatAngles),
      s.rep_count ≤ (squatAnalyzeFrame s l).1.rep_count) ∧
    (pushupRunFrom initAnalyzer
        [some ⟨some 180, none, none⟩, some ⟨some 45, none, none⟩,
          some ⟨some 180, none, none⟩]).2.map (fun r => r.rep_count) = [0, 0, 1] ∧
    (squatRunFrom initAnalyzer
        [some ⟨some 180, none, none⟩, some ⟨some 45, none, none⟩,
          some ⟨some 180, none, none⟩]).2.map (fun r => r.rep_count) = [0, 0, 1] := by
  refine ⟨?_, ?_, ?_, ?_, by decide, by decide⟩
  · intro s a
    simp only [pushupAnalyzeFrame, isRepComplete_iff]
  · intro s l
    cases l with
    | none => exact le_refl _
    | some a =>
      simp only [pushupAnalyzeFrame]
      split <;> omega
  · intro s a
    simp only [squatAnalyzeFrame, isRepComplete_iff]
  · intro s l
    cases l with
    | none => exact le_refl _
    | some a =>
      simp only [squatAnalyzeFrame]
      split <;> omega

/-! ## C6 -/

/-- Every feedback item in any push-up run result has `is_correct = false`. -/
theorem pushupRun_feedback_not_correct (frames : List (Option PushupAngles)) :
    ∀ s : AnalyzerState PushupAngles, ∀ r ∈ (pushupRunFrom s frames).2,
      ∀ f ∈ r.feedback, f.is_correct = false := by
  induction frames with
  | nil => intro s r hr; simp [pushupRunFrom] at hr
  | cons fr fs ih =>
    intro s r hr
    simp only [pushupRunFrom, List.mem_cons] at hr
    rcases hr with hr | hr
    · subst hr
      cases fr with
      | none => intro f hf; simp [pushupAnalyzeFrame] at hf
      | some a =>
        intro f hf
        simp only [pushupAnalyzeFrame] at hf
        exact pushupFormFeedback_not_correct _ a f hf
    · exact ih (pushupAnalyzeFrame s fr).1 r hr

/-- Every feedback item in any squat run result has `is_correct = false`. -/
theorem squatRun_feedback_not_correct (frames : List (Option SquatAngles)) :
    ∀ s : AnalyzerState SquatAngles, ∀ r ∈ (squatRunFrom s frames).2,
      ∀ f ∈ r.feedback, f.is_correct = false := by
  induction frames with
  | nil => intro s r hr; simp [squatRunFrom] at hr
  | cons fr fs ih =>
    intro s r hr
    simp only [squatRunFrom, List.mem_cons] at hr
    rcases hr with hr | hr
    · subst hr
      cases fr with
      | none => intro f hf; simp [squatAnalyzeFrame] at hf
      | some a =>
        intro f hf
        simp only [squatAnalyzeFrame] at hf
        exact squatFormFeedback_not_correct _ a f hf
    · exact ih (squatAnalyzeFrame s fr).1 r hr

/-- A push-up run yields one result per frame. -/
theorem pushupRun_length (frames : List (Option PushupAngles)) :
    ∀ s, (pushupRunFrom s frames).2.length = frames.length := by
  induction frames with
  | nil => intro s; rfl
  | cons fr fs ih => intro s; simp [pushupRunFrom, ih]

/-- A squat run yields one result per frame. -/
theorem squatRun_length (frames : List (Option SquatAngles)) :
    ∀ s, (squatRunFrom s frames).2.length = frames.length := by
  induction frames with
  | nil => intro s; rfl
  | cons fr fs ih => intro s; simp [squatRunFrom, ih]

/-- `form_accuracy = 100` for a nonempty result list in which every frame
passes the correct-form test. -/
theorem generateSummary_all_correct {A : Type} (results : List (FrameResult A))
    (hne : results ≠ []) (h : ∀ r ∈ results, correctFormFrame r.feedback = true) :
    (generateSummary results).form_accuracy = 100 := by
  cases hlast : results.getLast? with
  | none => exact absurd (List.getLast?_eq_none_iff.mp hlast) hne
  | some lastR =>
    have hfilter : results.filter (fun r => correctFormFrame r.feedback) = results :=
      List.filter_eq_self.mpr h
    have hlen : (results.length : ℚ) ≠ 0 := by
      simpa using fun hz => hne (List.length_eq_zero.mp hz)
    simp only [generateSummary, hlast, hfilter]
    rw [div_self hlen, one_mul]

/-- `form_accuracy = 0` when no frame passes the correct-form test. -/
theorem generateSummary_none_correct {A : Type} (results : List (FrameResult A))
    (h : ∀ r ∈ results, correctFormFrame r.feedback = false) :
    (generateSummary results).form_accuracy = 0 := by
  cases hlast : results.getLast? with
  | none => simp [generateSummary, hlast]
  | some lastR =>
    have hfilter : results.filter (fun r => correctFormFrame r.feedback) = [] :=
      List.filter_eq_nil_iff.mpr (fun r hr => by simp [h r hr])
    simp [generateSummary, hlast, hfilter]

/-- C6: for a session of either analyzer, if every analyzed frame produced
an empty feedback list (and at least one frame was analyzed) the summary's
`form_accuracy` is exactly 100; if every analyzed frame produced at least
one feedback item it is exactly 0. -/
theorem C6_form_accuracy :
    (∀ frames : List (Option PushupAngles), frames ≠ [] →
      (∀ r ∈ (pushupRunFrom initAnalyzer frames).2, r.feedback = []) →
      (generateSummary (pushupRunFrom initAnalyzer frames).2).form_accuracy = 100) ∧
    (∀ frames : List (Option PushupAngles),
      (∀ r ∈ (pushupRunFrom initAnalyzer frames).2, r.feedback ≠ []) →
      (generateSummary (pushupRunFrom initAnalyzer frames).2).form_accuracy = 0) ∧
    (∀ frames : List (Option SquatAngles), frames ≠ [] →
      (∀ r ∈ (squatRunFrom initAnalyzer frames).2, r.feedback = []) →
      (generateSummary (squatRunFrom initAnalyzer frames).2).form_accuracy = 100) ∧
    (∀ frames : List (Option SquatAngles),
      (∀ r ∈ (squatRunFrom initAnalyzer frames).2, r.feedback ≠ []) →
      (generateSummary (squatRunFrom initAnalyzer frames).2).form_accuracy = 0) := by
  refine ⟨?_, ?_, ?_, ?_⟩
  · intro frames hne h
    refine generateSummary_all_correct _ ?_ ?_
    · intro hz
      apply hne
      have hlen := pushupRun_length frames initAnalyzer
      rw [hz] at hlen
      exact List.length_eq_zero.mp hlen.symm
    · intro r hr
      simp [correctFormFrame, h r hr]
  · intro frames h
    refine generateSummary_none_correct _ ?_
    intro r hr
    rcases hfb : r.feedback with _ | ⟨f, fs⟩
    · exact absurd hfb (h r hr)
    · have hf : f.is_correct = false :=
        pushupRun_feedback_not_correct frames initAnalyzer r hr f (by simp [hfb])
      simp [correctFormFrame, hfb, hf]
  · intro frames hne h
    refine generateSummary_all_correct _ ?_ ?_
    · intro hz
      apply hne
      have hlen := squatRun_length frames initAnalyzer
      rw [hz] at hlen
      exact List.length_eq_zero.mp hlen.symm
    · intro r hr
      simp [correctFormFrame, h r hr]
  · intro frames h
    refine generateSummary_none_correct _ ?_
    intro r hr
    rcases hfb : r.feedback with _ | ⟨f, fs⟩
    · exact absurd hfb (h r hr)
    · have hf : f.is_correct = false :=
        squatRun_feedback_not_correct frames initAnalyzer r hr f (by simp [hfb])
      simp [correctFormFrame, hfb, hf]

/-- Witness for C6: a one-frame clean push-up session scores 100%, a
one-frame session that fires the elbow-flare warning scores 0%. -/
theorem C6_form_accuracy_witness :
    (generateSummary (pushupRunFrom initAnalyzer
      [some ⟨some 180, none, none⟩]).2).form_accuracy = 100 ∧
    (generateSummary (pushupRunFrom initAnalyzer
      [some ⟨some 180, some 100, none⟩]).2).form_accuracy = 0 :=
  ⟨C6_form_accuracy.1 [some ⟨some 180, none, none⟩] (by decide) (by decide),
    C6_form_accuracy.2.1 [some ⟨some 180, some 100, none⟩] (by decide)⟩

/-! ## Geometry helpers -/

/-- Unfolding of `calculate_angle` over explicit coordinates. -/
theorem calculate_angle_eq (a1 a2 a3 b1 b2 b3 c1 c2 c3 : ℝ) :
    calculate_angle (a1, a2, a3) (b1, b2, b3) (c1, c2, c3) =
      if norm2 (vsub2 (a1, a2) (b1, b2)) * norm2 (vsub2 (c1, c2) (b1, b2)) = 0
      then none
      else some (Real.arccos (clipUnit
        (dot2 (vsub2 (a1, a2) (b1, b2)) (vsub2 (c1, c2) (b1, b2)) /
          (norm2 (vsub2 (a1, a2) (b1, b2)) * norm2 (vsub2 (c1, c2) (b1, b2))))) *
        (180 / Real.pi)) := rfl

/-- The clipped cosine argument lies in `[-1, 1]`. -/
theorem clipUnit_mem (x : ℝ) : -1 ≤ clipUnit x ∧ clipUnit x ≤ 1 :=
  ⟨le_max_left _ _, max_le (by norm_num) (min_le_left 1 x)⟩

/-- `np.dot` is symmetric in its two arguments. -/
theorem dot2_comm (v w : ℝ × ℝ) : dot2 v w = dot2 w v := by
  unfold dot2
  ring

/-- Any value `calculate_angle` actually returns lies in `[0, 180]`. -/
theorem calculate_angle_bounds (a b c : ℝ × ℝ × ℝ) (θ : ℝ)
    (h : calculate_angle a b c = some θ) : 0 ≤ θ ∧ θ ≤ 180 := by
  obtain ⟨a1, a2, a3⟩ := a
  obtain ⟨b1, b2, b3⟩ := b
  obtain ⟨c1, c2, c3⟩ := c
  rw [calculate_angle_eq] at h
  split at h
  · exact absurd h (by simp)
  · obtain rfl : _ = θ := Option.some.inj h
    constructor
    · exact mul_nonneg (Real.arccos_nonneg _) (by positivity)
    · calc Real.arccos _ * (180 / Real.pi) ≤ Real.pi * (180 / Real.pi) :=
          mul_le_mul_of_nonneg_right (Real.arccos_le_pi _) (by positivity)
        _ = 180 := by
          rw [mul_comm]
          exact div_mul_cancel₀ _ Real.pi_ne_zero

/-- `calculate_angle` returns NaN (modelled `none`) exactly when the
divisor `‖ba‖·‖bc‖` vanishes, i.e. when either ray is degenerate. -/
theorem calculate_angle_none_iff (a b c : ℝ × ℝ × ℝ) :
    calculate_angle a b c = none ↔
      norm2 (vsub2 (a.1, a.2.1) (b.1, b.2.1)) *
        norm2 (vsub2 (c.1, c.2.1) (b.1, b.2.1)) = 0 := by
  obtain ⟨a1, a2, a3⟩ := a
  obtain ⟨b1, b2, b3⟩ := b
  obtain ⟨c1, c2, c3⟩ := c
  rw [calculate_angle_eq]
  split <;> simp_all

/-! ## C7 -/

/-- C7: for input points whose rays `b→a` and `b→c` both have nonzero
length, `calculate_angle` returns a value in `[0, 180]` degrees, the value
is unchanged when `a` and `c` are swapped, and the cosine argument passed
to `arccos` is the clipped quotient, which always lies in `[-1, 1]`. -/
theorem C7_angle_range_symmetric :
    (∀ x : ℝ, -1 ≤ clipUnit x ∧ clipUnit x ≤ 1) ∧
    ∀ a b c : ℝ × ℝ × ℝ,
      norm2 (vsub2 (a.1, a.2.1) (b.1, b.2.1)) ≠ 0 →
      norm2 (vsub2 (c.1, c.2.1) (b.1, b.2.1)) ≠ 0 →
      ∃ θ : ℝ, calculate_angle a b c = some θ ∧ 0 ≤ θ ∧ θ ≤ 180 ∧
        calculate_angle c b a = some θ := by
  refine ⟨clipUnit_mem, ?_⟩
  intro a b c h1 h2
  obtain ⟨a1, a2, a3⟩ := a
  obtain ⟨b1, b2, b3⟩ := b
  obtain ⟨c1, c2, c3⟩ := c
  dsimp only at h1 h2
  have hden : norm2 (vsub2 (a1, a2) (b1, b2)) * norm2 (vsub2 (c1, c2) (b1, b2)) ≠ 0 :=
    mul_ne_zero h1 h2
  have hden2 : norm2 (vsub2 (c1, c2) (b1, b2)) * norm2 (vsub2 (a1, a2) (b1, b2)) ≠ 0 :=
    mul_ne_zero h2 h1
  have hmain : calculate_angle (a1, a2, a3) (b1, b2, b3) (c1, c2, c3) =
      some (Real.arccos (clipUnit
        (dot2 (vsub2 (a1, a2) (b1, b2)) (vsub2 (c1, c2) (b1, b2)) /
          (norm2 (vsub2 (a1, a2) (b1, b2)) * norm2 (vsub2 (c1, c2) (b1, b2))))) *
        (180 / Real.pi)) := by
    rw [calculate_angle_eq, if_neg hden]
  have hb := calculate_angle_bounds _ _ _ _ hmain
  refine ⟨_, hmain, hb.1, hb.2, ?_⟩
  rw [calculate_angle_eq, if_neg hden2, dot2_comm,
    mul_comm (norm2 (vsub2 (c1, c2) (b1, b2)))]

/-- Witness for C7 at `a = (0,0), b = (1,0), c = (1,1)` (the spec's 90°
configuration). -/
theorem C7_angle_range_symmetric_witness :
    ∃ θ : ℝ, calculate_angle (0, 0, 0) (1, 0, 0) (1, 1, 0) = some θ ∧
      0 ≤ θ ∧ θ ≤ 180 ∧ calculate_angle (1, 1, 0) (1, 0, 0) (0, 0, 0) = some θ :=
  C7_angle_range_symmetric.2 (0, 0, 0) (1, 0, 0) (1, 1, 0)
    (by norm_num [norm2, vsub2])
    (by norm_num [norm2, vsub2])

/-! ## C5 -/

/-- A full 33-landmark array with every point at the origin (visibility 1):
all joint coordinates are available, but every joint triple is degenerate. -/
def nanLandmarks : List (List ℝ) := List.replicate 33 [0, 0, 0, 1]

/-- Coordinates of any in-range landmark of `nanLandmarks`. -/
theorem nanLandmarks_coords (i : ℕ) (hi : i < 33) :
    get_landmark_coordinates nanLandmarks i = some (0, 0, 0) := by
  unfold get_landmark_coordinates nanLandmarks
  rw [List.getElem?_replicate, if_pos hi]

/-- C5 counterexample: on a landmark array where shoulder, elbow and wrist
coincide, `_calculate_angles` stores the `elbow` key with the NaN produced
by `calculate_angle` — the angle set does contain a silently propagated
non-value (`some none`), contradicting the claim that entries are always a
valid degree value or absent. -/
theorem C5_nan_counterexample :
    (pushupCalculateAngles nanLandmarks).elbow = some none := by
  unfold pushupCalculateAngles
  rw [nanLandmarks_coords RIGHT_SHOULDER (by norm_num [RIGHT_SHOULDER]),
    nanLandmarks_coords RIGHT_ELBOW (by norm_num [RIGHT_ELBOW]),
    nanLandmarks_coords RIGHT_WRIST (by norm_num [RIGHT_WRIST]),
    nanLandmarks_coords RIGHT_HIP (by norm_num [RIGHT_HIP]),
    nanLandmarks_coords RIGHT_KNEE (by norm_num [RIGHT_KNEE])]
  show some (calculate_angle (0, 0, 0) (0, 0, 0) (0, 0, 0)) = some none
  rw [calculate_angle_eq, if_pos (by norm_num [norm2, vsub2])]

/-- An angle-set entry is absent, or NaN, or an actual value in `[0, 180]`. -/
def validDegreeEntry (e : Option (Option ℝ)) : Prop :=
  ∀ v θ, e = some v → v = some θ → 0 ≤ θ ∧ θ ≤ 180

/-- The absent entry trivially satisfies `validDegreeEntry`. -/
theorem validDegreeEntry_none : validDegreeEntry none := by
  intro v θ hv
  exact absurd hv (by simp)

/-- A stored `calculate_angle` result satisfies `validDegreeEntry`. -/
theorem validDegreeEntry_calc (x y z : ℝ × ℝ × ℝ) :
    validDegreeEntry (some (calculate_angle x y z)) := by
  intro v θ hv hθ
  obtain rfl := Option.some.inj hv
  exact calculate_angle_bounds x y z θ hθ

/-- C5 (amended): every entry of the computed push-up angle set is absent,
or NaN — produced and silently stored exactly when the divisor
`‖ba‖·‖bc‖` vanishes, i.e. a degenerate joint triple — or a valid degree
value in `[0, 180]`. -/
theorem C5_angle_entries :
    (∀ a b c : ℝ × ℝ × ℝ, calculate_angle a b c = none ↔
      norm2 (vsub2 (a.1, a.2.1) (b.1, b.2.1)) *
        norm2 (vsub2 (c.1, c.2.1) (b.1, b.2.1)) = 0) ∧
    (∀ (a b c : ℝ × ℝ × ℝ) (θ : ℝ), calculate_angle a b c = some θ →
      0 ≤ θ ∧ θ ≤ 180) ∧
    (∀ lm : List (List ℝ),
      validDegreeEntry (pushupCalculateAngles lm).elbow ∧
      validDegreeEntry (pushupCalculateAngles lm).shoulder ∧
      validDegreeEntry (pushupCalculateAngles lm).body_alignment) := by
  refine ⟨calculate_angle_none_iff, calculate_angle_bounds, ?_⟩
  intro lm
  unfold pushupCalculateAngles
  cases get_landmark_coordinates lm RIGHT_SHOULDER <;>
    cases get_landmark_coordinates lm RIGHT_ELBOW <;>
    cases get_landmark_coordinates lm RIGHT_WRIST <;>
    cases get_landmark_coordinates lm RIGHT_HIP <;>
    cases get_landmark_coordinates lm RIGHT_KNEE <;>
    exact ⟨by first | exact validDegreeEntry_none | exact validDegreeEntry_calc _ _ _,
      by first | exact validDegreeEntry_none | exact validDegreeEntry_calc _ _ _,
      by first | exact validDegreeEntry_none | exact validDegreeEntry_calc _ _ _⟩

/-- Witness for C5: the all-origin triple is reported NaN; a non-degenerate
triple produces an actual value, which lies in `[0, 180]`. -/
theorem C5_angle_entries_witness :
    calculate_angle (0, 0, 0) (0, 0, 0) (0, 0, 0) = none ∧
    (∃ θ : ℝ, calculate_angle (1, 0, 0) (0, 0, 0) (0, 1, 0) = some θ ∧
      0 ≤ θ ∧ θ ≤ 180) := by
  constructor
  · exact (C5_angle_entries.1 _ _ _).mpr (by norm_num [norm2, vsub2])
  · have h : calculate_angle ((1 : ℝ), (0 : ℝ), (0 : ℝ)) (0, 0, 0) (0, 1, 0) =
        some (Real.arccos (clipUnit
          (dot2 (vsub2 (1, 0) (0, 0)) (vsub2 (0, 1) (0, 0)) /
            (norm2 (vsub2 (1, 0) (0, 0)) * norm2 (vsub2 (0, 1) (0, 0))))) *
          (180 / Real.pi)) := by
      rw [calculate_angle_eq, if_neg (by norm_num [norm2, vsub2])]
    exact ⟨_, h, C5_angle_entries.2.1 _ _ _ _ h⟩

/-- Witness for C4: the 45° elbow frame classifies DOWN, and the recorded
state after that frame is UP-or-DOWN. -/
theorem C4_state_classifier_witness :
    (pushupDetermineState ⟨some 45, none, none⟩ = ExerciseState.down ↔ (45 : ℚ) < 90) ∧
    (ExerciseState.down = ExerciseState.up ∨ ExerciseState.down = ExerciseState.down) :=
  ⟨(C4_state_classifier.1 ⟨some 45, none, none⟩).1,
    (C4_state_classifier.2.2.2.2.2.2.1 [some ⟨some 45, none, none⟩]).2
      ExerciseState.down (by decide)⟩
